import Mathlib

/-!
Verification of the SWAPI L3 physics-inversion engine specification against the
repository sources.  Numeric code is embedded over `ℚ`: a value-with-uncertainty
is a (nominal, variance) pair, variance being the square of the standard
deviation tracked by the `uncertainties` package, so every statement about a
standard deviation `s` appears here as a statement about the variance `s^2`.
Square roots of energies are represented by squared velocities (`v = √(v²)`
with `v ≥ 0` determines `v`).  Parts of the repository that are only referenced
by the sources at hand (the science modules, the chunking helper and the shared
constants) are modelled from the specification; each such definition says so in
its doc comment.
-/

/-- A value with a propagated statistical uncertainty, as produced by the
`uncertainties` package: `nominal` value paired with the `variance`, i.e. the
square of the standard deviation. -/
structure UValue where
  nominal : ℚ
  variance : ℚ
deriving DecidableEq, Repr

/-- Insert a rational into an already sorted list, keeping it sorted and
duplicate-free. -/
def insertSorted (x : ℚ) : List ℚ → List ℚ
  | [] => [x]
  | y :: ys =>
    if x < y then x :: y :: ys
    else if x = y then y :: ys
    else y :: insertSorted x ys

/-- Sorted list of the distinct values occurring in `l`: the sampled grid of one
calibration-table axis, recovered from the row-oriented table text. -/
def sortedDedup (l : List ℚ) : List ℚ := l.foldr insertSorted []

/-- Two adjacent grid values strictly bracketing `x`, or `none` when `x` lies on
a grid point or outside the sampled range. -/
def bracket : List ℚ → ℚ → Option (ℚ × ℚ)
  | x0 :: x1 :: rest, x =>
    if x0 < x ∧ x < x1 then some (x0, x1) else bracket (x1 :: rest) x
  | _, _ => none

/-- Adjacent grid pair used for the local interpolation slope along an axis: for
`x` strictly between grid points this is the strict bracket; for `x` exactly on
a grid point it is the cell on the far side of `x` (the last cell at the upper
boundary), matching the one-sided derivative of the piecewise-linear
interpolant. -/
def slopeBracket : List ℚ → ℚ → Option (ℚ × ℚ)
  | x0 :: x1 :: rest, x =>
    if x0 ≤ x ∧ x < x1 then some (x0, x1)
    else if rest = [] ∧ x = x1 then some (x0, x1)
    else slopeBracket (x1 :: rest) x
  | _, _ => none

/-- Modelled from the spec: multi-linear interpolation of the grid-point value
function `values` over the rectangular grid with sorted axes `axes`, evaluated
at `query` (§4.3).  An axis coordinate equal to a sampled grid value
short-circuits to the stored value on that axis; a coordinate outside the
sampled range yields `none` (out-of-range lookups fail rather than
extrapolate). -/
def interpAt : List (List ℚ) → (List ℚ → ℚ) → List ℚ → Option ℚ
  | [], values, _ => some (values [])
  | _ :: _, _, [] => none
  | g :: axes, values, x :: xs =>
    if x ∈ g then interpAt axes (fun ys => values (x :: ys)) xs
    else
      match bracket g x with
      | some (x0, x1) =>
        match interpAt axes (fun ys => values (x0 :: ys)) xs,
              interpAt axes (fun ys => values (x1 :: ys)) xs with
        | some y0, some y1 => some (y0 + (y1 - y0) * (x - x0) / (x1 - x0))
        | _, _ => none
      | none => none

/-- Modelled from the spec: the local interpolation slope of the multi-linear
interpolant along axis `i`, computed from the interpolant's values at the two
ends of the bracketing cell on that axis (§4.3). -/
def axisSlope (axes : List (List ℚ)) (values : List ℚ → ℚ) (query : List ℚ)
    (i : Nat) : Option ℚ :=
  match query.get? i with
  | none => none
  | some x =>
    match slopeBracket (axes.getD i []) x with
    | none => none
    | some (x0, x1) =>
      match interpAt axes values (query.set i x0),
            interpAt axes values (query.set i x1) with
      | some y0, some y1 => some ((y1 - y0) / (x1 - x0))
      | _, _ => none

/-- Modelled from the spec: calibration lookup of a single output quantity with
first-order uncertainty propagation — the nominal result is the multi-linear
interpolation at the query's nominal coordinates, and the variance is the sum
over axes of (local interpolation slope)² times the query coordinate's variance
(§4.3, §4.4). -/
def lookupWithUncertainty (axes : List (List ℚ)) (values : List ℚ → ℚ)
    (q : List UValue) : Option UValue :=
  let query := q.map (fun u => u.nominal)
  match interpAt axes values query with
  | none => none
  | some v =>
    match (List.range axes.length).mapM (fun i => axisSlope axes values query i) with
    | none => none
    | some slopes =>
      some ⟨v, ((slopes.zip (q.map (fun u => u.variance))).map
        (fun p => p.1 ^ 2 * p.2)).sum⟩

/-- Column `i` of a row-oriented lookup table. -/
def column (rows : List (List ℚ)) (i : Nat) : List ℚ :=
  rows.map (fun r => r.getD i 0)

/-- Grid-point value function of the proton temperature/density lookup table:
the five input axes sit in row columns 0,1,2,3,5 and the requested output in
column `outIdx` (4 for corrected density, 6 for corrected temperature). -/
def tableValue (rows : List (List ℚ)) (outIdx : Nat) (coords : List ℚ) : ℚ :=
  match rows.find? (fun r =>
      [r.getD 0 0, r.getD 1 0, r.getD 2 0, r.getD 3 0, r.getD 5 0] = coords) with
  | some r => r.getD outIdx 0
  | none => 0

/-- The five sorted axes (speed, deflection angle, clock angle, density,
temperature) of a row-oriented proton temperature/density lookup table. -/
def lutAxes (rows : List (List ℚ)) : List (List ℚ) :=
  [sortedDedup (column rows 0), sortedDedup (column rows 1),
   sortedDedup (column rows 2), sortedDedup (column rows 3),
   sortedDedup (column rows 5)]

/-- The test helper `generate_lookup_table` of
`test_calculate_proton_solar_wind_temperature_and_density.py`: one row
`[speed, deflection, clock_angle, density, 1.021·density, temperature,
0.97561·temperature]` per point of the cartesian product of the five axes, the
last axis varying fastest. -/
def generate_lookup_table (speed_values deflection_angle_values
    clock_angle_values density_values temperature_values : List ℚ) :
    List (List ℚ) :=
  speed_values.flatMap fun speed =>
    deflection_angle_values.flatMap fun deflection =>
      clock_angle_values.flatMap fun clock_angle =>
        density_values.flatMap fun density =>
          temperature_values.map fun temperature =>
            [speed, deflection, clock_angle, density, 1.021 * density,
             temperature, 0.97561 * temperature]

/-- Modelled from the spec: `lookup_table_temperature_density` — queries the
row-oriented proton calibration table at `(speed, deflection angle, clock
angle, density, temperature)` and returns the corrected `(temperature,
density)` pair, each with uncertainty propagated through the local
interpolation slopes (§4.3). -/
def lookup_table_temperature_density (rows : List (List ℚ))
    (sw_speed deflection_angle clock_angle density temperature : UValue) :
    Option (UValue × UValue) :=
  let q := [sw_speed, deflection_angle, clock_angle, density, temperature]
  match lookupWithUncertainty (lutAxes rows) (tableValue rows 6) q,
        lookupWithUncertainty (lutAxes rows) (tableValue rows 4) q with
  | some t, some d => some (t, d)
  | _, _ => none

set_option maxHeartbeats 4000000 in
/-- C2: querying the test lookup table (speed {250,1000}, deflection {0,6},
clock {0,360}, density {1,10}, temperature {1000,100000}, with corrected
outputs `density_out = 1.021·density_in` and
`temperature_out = 0.97561·temperature_in`) at
`speed=450±2, deflection=3±0.1, clock=1±1, density=4±0.1,
temperature=50000±10000` returns temperature `50000·0.97561` with standard
deviation `10000·0.97561` and density `4·1.021` with standard deviation
`0.1·1.021` (standard deviations stated through their squares, the
variances). -/
theorem c2_density_temperature_lookup_concrete :
    lookup_table_temperature_density
      (generate_lookup_table [250, 1000] [0, 6] [0, 360] [1, 10] [1000, 100000])
      ⟨450, 2 ^ 2⟩ ⟨3, (0.1 : ℚ) ^ 2⟩ ⟨1, 1 ^ 2⟩ ⟨4, (0.1 : ℚ) ^ 2⟩
      ⟨50000, 10000 ^ 2⟩ =
    some (⟨50000 * 0.97561, (10000 * 0.97561) ^ 2⟩,
          ⟨4 * 1.021, (0.1 * 1.021) ^ 2⟩) := by
  norm_num [lookup_table_temperature_density, lookupWithUncertainty, lutAxes, tableValue,
    column, generate_lookup_table, sortedDedup, insertSorted, interpAt, bracket, slopeBracket,
    axisSlope, List.find?, List.range, List.mapM, List.mapM.loop, List.set, List.flatMap]

/-- Modelled from the spec: batched (array) form of the calibration lookup —
the same rule applied element-wise to five equal-length arrays of query points
(§4.3 "broadcast application of the same rule to every element"). -/
def lookup_table_temperature_density_batched (rows : List (List ℚ)) :
    List UValue → List UValue → List UValue → List UValue → List UValue →
    List (Option (UValue × UValue))
  | s :: ss, a :: aa, c :: cc, d :: dd, t :: tt =>
    lookup_table_temperature_density rows s a c d t ::
      lookup_table_temperature_density_batched rows ss aa cc dd tt
  | _, _, _, _, _ => []

/-- C4: for every lookup table and every five equal-length arrays of query
points, the batched calibration lookup returns, element by element, exactly the
same results (nominal values and propagated variances) as independent scalar
calls on the individual points. -/
theorem c4_batched_lookup_equals_scalar_calls (rows : List (List ℚ))
    (speeds deflections clocks densities temperatures : List UValue)
    (ha : deflections.length = speeds.length)
    (hc : clocks.length = speeds.length)
    (hd : densities.length = speeds.length)
    (ht : temperatures.length = speeds.length) :
    (lookup_table_temperature_density_batched rows speeds deflections clocks
        densities temperatures).length = speeds.length ∧
    ∀ k, k < speeds.length →
      (lookup_table_temperature_density_batched rows speeds deflections clocks
          densities temperatures).getD k none =
        lookup_table_temperature_density rows (speeds.getD k ⟨0, 0⟩)
          (deflections.getD k ⟨0, 0⟩) (clocks.getD k ⟨0, 0⟩)
          (densities.getD k ⟨0, 0⟩) (temperatures.getD k ⟨0, 0⟩) := by
  induction speeds generalizing deflections clocks densities temperatures with
  | nil =>
    simp only [List.length_nil, List.length_eq_zero] at ha hc hd ht
    subst ha hc hd ht
    exact ⟨rfl, fun k hk => absurd hk (Nat.not_lt_zero k)⟩
  | cons s ss ih =>
    cases deflections with
    | nil => simp at ha
    | cons a aa =>
      cases clocks with
      | nil => simp at hc
      | cons c cc =>
        cases densities with
        | nil => simp at hd
        | cons d dd =>
          cases temperatures with
          | nil => simp at ht
          | cons t tt =>
            simp only [List.length_cons, Nat.succ.injEq] at ha hc hd ht
            obtain ⟨hlen, hget⟩ := ih aa cc dd tt ha hc hd ht
            refine ⟨by simpa [lookup_table_temperature_density_batched] using hlen, ?_⟩
            intro k hk
            cases k with
            | zero => rfl
            | succ k =>
              simpa [lookup_table_temperature_density_batched] using
                hget k (Nat.lt_of_succ_lt_succ hk)

/-- Witness for C4 at a concrete table and concrete one-point query arrays. -/
theorem c4_batched_lookup_equals_scalar_calls_witness :
    (lookup_table_temperature_density_batched [[1, 2, 3, 4, 5, 6, 7]]
        [⟨1, 1⟩] [⟨2, 1⟩] [⟨3, 1⟩] [⟨4, 1⟩] [⟨6, 1⟩]).getD 0 none =
      lookup_table_temperature_density [[1, 2, 3, 4, 5, 6, 7]]
        ([⟨1, 1⟩].getD 0 ⟨0, 0⟩) ([⟨2, 1⟩].getD 0 ⟨0, 0⟩) ([⟨3, 1⟩].getD 0 ⟨0, 0⟩)
        ([⟨4, 1⟩].getD 0 ⟨0, 0⟩) ([⟨6, 1⟩].getD 0 ⟨0, 0⟩) :=
  (c4_batched_lookup_equals_scalar_calls [[1, 2, 3, 4, 5, 6, 7]]
    [⟨1, 1⟩] [⟨2, 1⟩] [⟨3, 1⟩] [⟨4, 1⟩] [⟨6, 1⟩] rfl rfl rfl rfl).2 0 (by decide)

/-- Modelled from the spec: the weighted sum of squared residuals that the
temperature/density fit of §4.2 minimises — weighted least squares of the
count-rate forward model `model (energy, density, temperature, speed)` against
the observed counts, using the per-point variance as inverse weight (§4.2.3).
`calculate_proton_solar_wind_temperature_and_density_for_one_sweep` is modelled
as returning a global minimiser of this objective. -/
def weightedSSR (model : ℚ → ℚ → ℚ → ℚ → ℚ) (speed : ℚ)
    (energies counts weights : List ℚ) (density temperature : ℚ) : ℚ :=
  ((energies.zip (counts.zip weights)).map
    (fun p => p.2.2 * (model p.1 density temperature speed - p.2.1) ^ 2)).sum

/-- On noise-free data generated by the model itself, the weighted residual of
the objective reduces to a sum over (energy, weight) pairs of weighted squared
model differences. -/
theorem weightedSSR_model_data (model : ℚ → ℚ → ℚ → ℚ → ℚ) (speed : ℚ)
    (energies weights : List ℚ) (f : ℚ → ℚ) (density temperature : ℚ) :
    weightedSSR model speed energies (energies.map f) weights density temperature =
      ((energies.zip weights).map
        (fun q => q.2 * (model q.1 density temperature speed - f q.1) ^ 2)).sum := by
  induction energies generalizing weights with
  | nil => rfl
  | cons e es ih =>
    cases weights with
    | nil => rfl
    | cons w ws => simp [weightedSSR, List.zip_cons_cons] at ih ⊢; rw [ih]

/-- Every term of the model-data residual is non-negative when the weights are
non-negative, so the objective itself is non-negative. -/
theorem weightedSSR_model_data_nonneg (model : ℚ → ℚ → ℚ → ℚ → ℚ) (speed : ℚ)
    (energies weights : List ℚ) (f : ℚ → ℚ) (density temperature : ℚ)
    (hw : ∀ w ∈ weights, 0 ≤ w) :
    0 ≤ weightedSSR model speed energies (energies.map f) weights density temperature := by
  rw [weightedSSR_model_data]
  apply List.sum_nonneg
  intro x hx
  obtain ⟨q, hq, rfl⟩ := List.mem_map.mp hx
  have hqw : q.2 ∈ weights := (List.of_mem_zip hq).2
  exact mul_nonneg (hw q.2 hqw) (sq_nonneg _)

/-- A list of non-negative rationals with zero sum is identically zero. -/
theorem list_sum_zero_of_nonneg {l : List ℚ} (h0 : ∀ x ∈ l, 0 ≤ x)
    (hs : l.sum = 0) : ∀ x ∈ l, x = 0 := by
  induction l with
  | nil => intro x hx; cases hx
  | cons a as ih =>
    have ha : 0 ≤ a := h0 a (List.mem_cons_self a as)
    have has : 0 ≤ as.sum := List.sum_nonneg (fun x hx => h0 x (List.mem_cons_of_mem a hx))
    rw [List.sum_cons] at hs
    have ha0 : a = 0 := le_antisymm (by linarith) ha
    intro x hx
    rcases List.mem_cons.mp hx with rfl | hx
    · exact ha0
    · exact ih (fun y hy => h0 y (List.mem_cons_of_mem a hy)) (by linarith) x hx

/-- C1: round-trip of the physics-inversion engine — for every physical
parameter pair `(d0, t0)`, generating count rates over an energy grid with the
count-rate forward model at zero added noise and fitting them back by weighted
least squares (§4.2, modelled as returning a global minimiser `(dfit, tfit)` of
`weightedSSR`) recovers the original density and temperature exactly (hence in
particular to 6 decimal places for density and to whole units for
temperature), provided the weights are positive and the forward model is
injective in (density, temperature) on the energy grid — the idealisation over
`ℚ` of the sampled physical ranges on which the fit is well posed. -/
theorem c1_fit_roundtrip_recovers_density_and_temperature
    (model : ℚ → ℚ → ℚ → ℚ → ℚ) (speed d0 t0 : ℚ) (energies weights : List ℚ)
    (hlen : weights.length = energies.length)
    (hw : ∀ w ∈ weights, 0 < w)
    (hinj : ∀ d1 t1 d2 t2,
      (∀ e ∈ energies, model e d1 t1 speed = model e d2 t2 speed) →
        d1 = d2 ∧ t1 = t2)
    (dfit tfit : ℚ)
    (hmin : ∀ d t,
      weightedSSR model speed energies
          (energies.map (fun e => model e d0 t0 speed)) weights dfit tfit ≤
        weightedSSR model speed energies
          (energies.map (fun e => model e d0 t0 speed)) weights d t) :
    dfit = d0 ∧ tfit = t0 := by
  have hzero : weightedSSR model speed energies
      (energies.map (fun e => model e d0 t0 speed)) weights d0 t0 = 0 := by
    rw [weightedSSR_model_data]
    apply List.sum_eq_zero
    intro x hx
    obtain ⟨q, hq, rfl⟩ := List.mem_map.mp hx
    ring
  have hnn := weightedSSR_model_data_nonneg model speed energies weights
    (fun e => model e d0 t0 speed) dfit tfit (fun w hmem => (hw w hmem).le)
  have hle := hmin d0 t0
  rw [hzero] at hle
  have hfit0 : weightedSSR model speed energies
      (energies.map (fun e => model e d0 t0 speed)) weights dfit tfit = 0 :=
    le_antisymm hle hnn
  rw [weightedSSR_model_data] at hfit0
  have hterm := list_sum_zero_of_nonneg (l :=
      ((energies.zip weights).map
        (fun q => q.2 * (model q.1 dfit tfit speed - model q.1 d0 t0 speed) ^ 2)))
    (by
      intro x hx
      obtain ⟨q, hq, rfl⟩ := List.mem_map.mp hx
      exact mul_nonneg (hw q.2 (List.of_mem_zip hq).2).le (sq_nonneg _)) hfit0
  have hpt : ∀ e ∈ energies, model e dfit tfit speed = model e d0 t0 speed := by
    intro e he
    obtain ⟨i, hie, hi⟩ := List.mem_iff_getElem.mp he
    have hiw : i < weights.length := hlen ▸ hie
    have hzlen : i < (energies.zip weights).length := by
      rw [List.length_zip]
      exact lt_min hie hiw
    have hmem : (energies.zip weights)[i] ∈ energies.zip weights :=
      List.getElem_mem hzlen
    have hterm0 := hterm _ (List.mem_map_of_mem _ hmem)
    rw [List.getElem_zip] at hterm0
    have hwpos : 0 < weights[i] := hw _ (List.getElem_mem hiw)
    have hsq : (model energies[i] dfit tfit speed -
        model energies[i] d0 t0 speed) ^ 2 = 0 := by
      rcases mul_eq_zero.mp hterm0 with h | h
      · exact absurd h hwpos.ne'
      · exact h
    have hdiff := sq_eq_zero_iff.mp hsq
    rw [hi] at hdiff
    linarith
  exact hinj dfit tfit d0 t0 hpt

/-- Witness for C1 at a concrete injective model, grid and exact minimiser. -/
theorem c1_fit_roundtrip_recovers_density_and_temperature_witness :
    (5 : ℚ) = 5 ∧ (100000 : ℚ) = 100000 := by
  refine c1_fit_roundtrip_recovers_density_and_temperature
    (fun e d t _ => d * e + t) 450 5 100000 [1, 2] [1, 1] rfl ?_ ?_ 5 100000 ?_
  · intro w hmem
    rcases List.mem_cons.mp hmem with rfl | hmem
    · norm_num
    · rcases List.mem_cons.mp hmem with rfl | hmem
      · norm_num
      · cases hmem
  · intro d1 t1 d2 t2 h
    have h1 := h 1 (by norm_num)
    have h2 := h 2 (by norm_num)
    norm_num at h1 h2
    constructor <;> linarith
  · intro d t
    have h0 : weightedSSR (fun e d t _ => d * e + t) 450 [1, 2]
        ([1, 2].map (fun e => (5 : ℚ) * e + 100000)) [1, 1] 5 100000 = 0 := by
      rw [weightedSSR_model_data]
      apply List.sum_eq_zero
      intro x hx
      obtain ⟨q, hq, rfl⟩ := List.mem_map.mp hx
      ring
    rw [h0]
    refine weightedSSR_model_data_nonneg (fun e d t _ => d * e + t) 450 [1, 2] [1, 1]
      (fun e => 5 * e + 100000) d t ?_
    intro w hmem
    rcases List.mem_cons.mp hmem with rfl | hmem
    · norm_num
    · rcases List.mem_cons.mp hmem with rfl | hmem
      · norm_num
      · cases hmem

/-- Modelled from the spec: the elementary charge in coulombs (exact SI
value), the proton charge used in the energy-to-velocity conversion. -/
def PROTON_CHARGE_COULOMBS : ℚ := 1.602176634e-19

/-- Modelled from the spec: the proton mass in kilograms (CODATA 2022 value,
the one that reproduces the expected velocities of the VDF test to double
precision). -/
def PROTON_MASS_KG : ℚ := 1.67262192595e-27

/-- The IEEE-754 double closest to π, the value of `np.pi` used by the
floating-point code. -/
def PI_AS_DOUBLE : ℚ := 884279719003555 / 281474976710656

/-- Modelled from the spec: the square of the proton speed in (km/s)² for a
given energy-per-charge in eV — `v = sqrt(2·E·q/m)` (§4.5, `v = k·√E`); the
speed is represented by its square, which determines it since `v ≥ 0`.  A zero
energy gives a zero speed. -/
def proton_speed_squared (energy : ℚ) : ℚ :=
  2 * energy * PROTON_CHARGE_COULOMBS / PROTON_MASS_KG / 1000 ^ 2

/-- Modelled from the spec: phase-space density of a single bin of the proton
VDF, `f = 4π·(m/q)·count_rate/(energy·geometric_factor·efficiency)` (§4.5 "up
to the documented constant factor"; the energy exponent and the constant are
fixed by the expected values of `test_calculate_proton_solar_wind_vdf`).
`none` models the floating-point `NaN` reported when the count rate is
non-positive or the velocity is zero, where the density is undefined. -/
def proton_phase_space_density
    (count_rate energy efficiency geometric_factor : ℚ) : Option ℚ :=
  if count_rate ≤ 0 ∨ energy ≤ 0 then none
  else some (4 * PI_AS_DOUBLE * PROTON_MASS_KG * count_rate /
    (PROTON_CHARGE_COULOMBS * energy * geometric_factor * efficiency))

/-- Modelled from the spec: `calculate_proton_solar_wind_vdf` — converts each
energy bin of a combined sweep to a (squared) velocity and a phase-space
density, element-wise over the bins; undefined bins carry `none` (`NaN`) and
never raise (§4.5). -/
def calculate_proton_solar_wind_vdf (energies count_rates : List ℚ)
    (efficiency geometric_factor : ℚ) : List ℚ × List (Option ℚ) :=
  (energies.map proton_speed_squared,
   (energies.zip count_rates).map
     (fun p => proton_phase_space_density p.2 p.1 efficiency geometric_factor))

/-- C3: VDF undefined-bin policy — the conversion is total (never raises,
producing one output per bin), a bin's outputs depend only on that bin's
energy and count rate, a bin's phase-space density is `none` (`NaN`) precisely
when its count rate is non-positive or its energy is zero-or-negative (zero
velocity), and on the concrete test input (energies `[0, 1000, 750, 500]`,
count rates `[0, 10, 20, 30]`, efficiency `0.0882`, geometric factor `1e-12`)
the first bin has velocity `0.0` and density `NaN` while the remaining
velocities and densities match the expected values `[437.6947142244463,
379.05474162054054, 309.496900517614]` (through their squares) and
`[14874.030602544019, 39664.08160678405, 89244.1836152641]` to a relative
error of `10⁻¹²` (the values are double-precision roundings). -/
theorem c3_vdf_undefined_bin_policy :
    (∀ (energies count_rates : List ℚ) (efficiency geometric_factor : ℚ),
      (calculate_proton_solar_wind_vdf energies count_rates efficiency
        geometric_factor).1.length = energies.length ∧
      (calculate_proton_solar_wind_vdf energies count_rates efficiency
        geometric_factor).2.length = min energies.length count_rates.length) ∧
    (∀ (energies count_rates : List ℚ) (efficiency geometric_factor : ℚ)
        (i : Nat) (e c : ℚ),
      energies.get? i = some e → count_rates.get? i = some c →
      ((calculate_proton_solar_wind_vdf energies count_rates efficiency
          geometric_factor).1.get? i = some (proton_speed_squared e) ∧
       (calculate_proton_solar_wind_vdf energies count_rates efficiency
          geometric_factor).2.get? i =
         some (proton_phase_space_density c e efficiency geometric_factor) ∧
       (proton_phase_space_density c e efficiency geometric_factor = none ↔
         c ≤ 0 ∨ e ≤ 0))) ∧
    ((calculate_proton_solar_wind_vdf [0, 1000, 750, 500] [0, 10, 20, 30]
        0.0882 (1 / 10 ^ 12)).1.getD 0 1 = 0 ∧
     (calculate_proton_solar_wind_vdf [0, 1000, 750, 500] [0, 10, 20, 30]
        0.0882 (1 / 10 ^ 12)).2.getD 0 (some 1) = none ∧
     (∃ v, (calculate_proton_solar_wind_vdf [0, 1000, 750, 500] [0, 10, 20, 30]
        0.0882 (1 / 10 ^ 12)).1.get? 1 = some v ∧
        |v - 437.6947142244463 ^ 2| ≤ 437.6947142244463 ^ 2 / 10 ^ 12) ∧
     (∃ v, (calculate_proton_solar_wind_vdf [0, 1000, 750, 500] [0, 10, 20, 30]
        0.0882 (1 / 10 ^ 12)).1.get? 2 = some v ∧
        |v - 379.05474162054054 ^ 2| ≤ 379.05474162054054 ^ 2 / 10 ^ 12) ∧
     (∃ v, (calculate_proton_solar_wind_vdf [0, 1000, 750, 500] [0, 10, 20, 30]
        0.0882 (1 / 10 ^ 12)).1.get? 3 = some v ∧
        |v - 309.496900517614 ^ 2| ≤ 309.496900517614 ^ 2 / 10 ^ 12) ∧
     (∃ p, (calculate_proton_solar_wind_vdf [0, 1000, 750, 500] [0, 10, 20, 30]
        0.0882 (1 / 10 ^ 12)).2.get? 1 = some (some p) ∧
        |p - 14874.030602544019| ≤ 14874.030602544019 / 10 ^ 12) ∧
     (∃ p, (calculate_proton_solar_wind_vdf [0, 1000, 750, 500] [0, 10, 20, 30]
        0.0882 (1 / 10 ^ 12)).2.get? 2 = some (some p) ∧
        |p - 39664.08160678405| ≤ 39664.08160678405 / 10 ^ 12) ∧
     (∃ p, (calculate_proton_solar_wind_vdf [0, 1000, 750, 500] [0, 10, 20, 30]
        0.0882 (1 / 10 ^ 12)).2.get? 3 = some (some p) ∧
        |p - 89244.1836152641| ≤ 89244.1836152641 / 10 ^ 12)) := by
  refine ⟨?_, ?_, ?_, ?_, ?_, ?_, ?_, ?_, ?_, ?_⟩
  · intro energies count_rates efficiency geometric_factor
    constructor
    · simp [calculate_proton_solar_wind_vdf]
    · simp [calculate_proton_solar_wind_vdf]
  · intro energies count_rates efficiency geometric_factor i e c h1 h2
    refine ⟨?_, ?_, ?_⟩
    · rw [calculate_proton_solar_wind_vdf]
      simp only [List.get?_eq_getElem?, List.getElem?_map] at h1 ⊢
      rw [h1]
      rfl
    · rw [calculate_proton_solar_wind_vdf]
      simp only [List.get?_eq_getElem?, List.getElem?_map]
      have hz : (energies.zip count_rates).get? i = some (e, c) :=
        (List.get?_zip_eq_some energies count_rates (e, c) i).mpr ⟨h1, h2⟩
      simp only [List.get?_eq_getElem?] at hz
      rw [hz]
      rfl
    · rw [proton_phase_space_density]
      split_ifs with h
      · simp [h]
      · simp [h]
  · norm_num [calculate_proton_solar_wind_vdf, proton_speed_squared,
      PROTON_CHARGE_COULOMBS, PROTON_MASS_KG]
  · norm_num [calculate_proton_solar_wind_vdf, proton_phase_space_density]
  · refine ⟨_, rfl, ?_⟩
    norm_num [proton_speed_squared, PROTON_CHARGE_COULOMBS, PROTON_MASS_KG, abs_le]
  · refine ⟨_, rfl, ?_⟩
    norm_num [proton_speed_squared, PROTON_CHARGE_COULOMBS, PROTON_MASS_KG, abs_le]
  · refine ⟨_, rfl, ?_⟩
    norm_num [proton_speed_squared, PROTON_CHARGE_COULOMBS, PROTON_MASS_KG, abs_le]
  · refine ⟨4 * PI_AS_DOUBLE * PROTON_MASS_KG * 10 /
      (PROTON_CHARGE_COULOMBS * 1000 * (1 / 10 ^ 12) * 0.0882), ?_, ?_⟩
    · norm_num [calculate_proton_solar_wind_vdf, proton_phase_space_density]
    · norm_num [PROTON_CHARGE_COULOMBS, PROTON_MASS_KG, PI_AS_DOUBLE, abs_le]
  · refine ⟨4 * PI_AS_DOUBLE * PROTON_MASS_KG * 20 /
      (PROTON_CHARGE_COULOMBS * 750 * (1 / 10 ^ 12) * 0.0882), ?_, ?_⟩
    · norm_num [calculate_proton_solar_wind_vdf, proton_phase_space_density]
    · norm_num [PROTON_CHARGE_COULOMBS, PROTON_MASS_KG, PI_AS_DOUBLE, abs_le]
  · refine ⟨4 * PI_AS_DOUBLE * PROTON_MASS_KG * 30 /
      (PROTON_CHARGE_COULOMBS * 500 * (1 / 10 ^ 12) * 0.0882), ?_, ?_⟩
    · norm_num [calculate_proton_solar_wind_vdf, proton_phase_space_density]
    · norm_num [PROTON_CHARGE_COULOMBS, PROTON_MASS_KG, PI_AS_DOUBLE, abs_le]

/-- Witness for C3's universally quantified part at a concrete one-bin input
whose count rate is zero: the bin yields `none` (`NaN`). -/
theorem c3_vdf_undefined_bin_policy_witness :
    (calculate_proton_solar_wind_vdf [1000] [0] 1 1).1.get? 0 =
      some (proton_speed_squared 1000) ∧
    (calculate_proton_solar_wind_vdf [1000] [0] 1 1).2.get? 0 =
      some (proton_phase_space_density 0 1000 1 1) ∧
    (proton_phase_space_density 0 1000 1 1 = none ↔ (0 : ℚ) ≤ 0 ∨ (1000 : ℚ) ≤ 0) :=
  c3_vdf_undefined_bin_policy.2.1 [1000] [0] 1 1 0 1000 0 rfl rfl

/-- Modelled from the spec: single-axis calibration table variant keyed by a
monotonically increasing energy grid with one geometric-factor value per grid
point (§4.3, §3 CalibrationTable / GeometricFactorTable). -/
structure GeometricFactorCalibrationTable where
  grid : List ℚ
  geometric_factor_grid : List ℚ
deriving DecidableEq, Repr

/-- Modelled from the spec: 1-D linear interpolation over a list of
`(axis value, output value)` points sorted by axis value — an exact grid hit
short-circuits to the stored value, a query strictly between two adjacent grid
points returns the linear interpolation of the bracketing stored values, and a
query outside the sampled range fails with `none` (no extrapolation). -/
def interp1d : List (ℚ × ℚ) → ℚ → Option ℚ
  | [(x0, y0)], x => if x = x0 then some y0 else none
  | (x0, y0) :: (x1, y1) :: rest, x =>
    if x = x0 then some y0
    else if x0 < x ∧ x < x1 then
      some (y0 + (y1 - y0) * (x - x0) / (x1 - x0))
    else interp1d ((x1, y1) :: rest) x
  | [], _ => none

/-- Modelled from the spec: `GeometricFactorCalibrationTable.lookup_geometric_factor`
— 1-D linear interpolation of the geometric factor at an energy, with
extrapolation-forbidding boundary behaviour. -/
def GeometricFactorCalibrationTable.lookup_geometric_factor
    (t : GeometricFactorCalibrationTable) (energy : ℚ) : Option ℚ :=
  interp1d (t.grid.zip t.geometric_factor_grid) energy

/-- On a strictly sorted point list, `interp1d` at a grid point returns the
stored value unchanged. -/
theorem interp1d_exact_hit (l : List (ℚ × ℚ))
    (hs : l.Pairwise (fun p q => p.1 < q.1)) (x y : ℚ) (hm : (x, y) ∈ l) :
    interp1d l x = some y := by
  induction l with
  | nil => cases hm
  | cons a rest ih =>
    rw [List.pairwise_cons] at hs
    rcases List.mem_cons.mp hm with rfl | hmem
    · cases rest with
      | nil => simp [interp1d]
      | cons b rest2 => simp [interp1d]
    · have hax : a.1 < x := hs.1 (x, y) hmem
      cases rest with
      | nil => cases hmem
      | cons b rest2 =>
        have hbx : b.1 ≤ x := by
          rcases List.mem_cons.mp hmem with rfl | hmem2
          · exact le_refl _
          · exact (((List.pairwise_cons.mp hs.2).1 (x, y) hmem2)).le
        have hne : ¬ x = a.1 := ne_of_gt hax
        have hnb : ¬ (a.1 < x ∧ x < b.1) := fun h => absurd h.2 (not_lt.mpr hbx)
        calc interp1d (a :: b :: rest2) x = interp1d (b :: rest2) x := by
              rw [show a = (a.1, a.2) from rfl, show b = (b.1, b.2) from rfl]
              rw [interp1d]
              simp only [hne, if_false, hnb]
          _ = some y := ih hs.2 hmem

/-- On a strictly sorted point list, `interp1d` strictly between two adjacent
grid points returns the linear interpolation of the bracketing stored
values. -/
theorem interp1d_between (l : List (ℚ × ℚ))
    (hs : l.Pairwise (fun p q => p.1 < q.1)) (i : Nat) (x0 y0 x1 y1 x : ℚ)
    (h0 : l.get? i = some (x0, y0)) (h1 : l.get? (i + 1) = some (x1, y1))
    (hx0 : x0 < x) (hx1 : x < x1) :
    interp1d l x = some (y0 + (y1 - y0) * (x - x0) / (x1 - x0)) := by
  induction l generalizing i with
  | nil => cases h0
  | cons a rest ih =>
    rw [List.pairwise_cons] at hs
    cases rest with
    | nil =>
      cases i with
      | zero => cases h1
      | succ j => cases h0
    | cons b rest2 =>
      cases i with
      | zero =>
        simp only [List.get?_cons_zero, Option.some.injEq] at h0
        simp only [List.get?_cons_succ, List.get?_cons_zero, Option.some.injEq] at h1
        subst h0 h1
        have hne : ¬ x = x0 := ne_of_gt hx0
        rw [show (x0, y0) = ((x0, y0).1, (x0, y0).2) from rfl,
          show (x1, y1) = ((x1, y1).1, (x1, y1).2) from rfl, interp1d]
        simp only [hne, if_false]
        rw [if_pos ⟨hx0, hx1⟩]
      | succ j =>
        simp only [List.get?_cons_succ] at h0 h1
        have hx0mem : (x0, y0) ∈ b :: rest2 := List.get?_mem h0
        have hax : a.1 < x := by
          have : a.1 < x0 := hs.1 (x0, y0) hx0mem
          linarith
        have hbx : b.1 ≤ x := by
          cases j with
          | zero =>
            simp only [List.get?_cons_zero, Option.some.injEq] at h0
            rw [h0]
            exact hx0.le
          | succ k =>
            simp only [List.get?_cons_succ] at h0
            have : b.1 < x0 := (List.pairwise_cons.mp hs.2).1 (x0, y0) (List.get?_mem h0)
            linarith
        have hne : ¬ x = a.1 := ne_of_gt hax
        have hnb : ¬ (a.1 < x ∧ x < b.1) := fun h => absurd h.2 (not_lt.mpr hbx)
        calc interp1d (a :: b :: rest2) x = interp1d (b :: rest2) x := by
              rw [show a = (a.1, a.2) from rfl, show b = (b.1, b.2) from rfl, interp1d]
              simp only [hne, if_false, hnb]
          _ = some (y0 + (y1 - y0) * (x - x0) / (x1 - x0)) :=
              ih hs.2 j h0 h1

/-- C6: interpolation exactness at grid points — for every geometric-factor
calibration table with strictly increasing energy grid, a query exactly equal
to a sampled grid energy returns the stored geometric factor unchanged (no
interpolation error), while a query strictly between two adjacent grid
energies returns the linear interpolation of the bracketing stored values. -/
theorem c6_lookup_exact_at_grid_points (t : GeometricFactorCalibrationTable)
    (hs : (t.grid.zip t.geometric_factor_grid).Pairwise (fun p q => p.1 < q.1)) :
    (∀ x y, (x, y) ∈ t.grid.zip t.geometric_factor_grid →
      t.lookup_geometric_factor x = some y) ∧
    (∀ (i : Nat) (x0 y0 x1 y1 x : ℚ),
      (t.grid.zip t.geometric_factor_grid).get? i = some (x0, y0) →
      (t.grid.zip t.geometric_factor_grid).get? (i + 1) = some (x1, y1) →
      x0 < x → x < x1 →
      t.lookup_geometric_factor x =
        some (y0 + (y1 - y0) * (x - x0) / (x1 - x0))) :=
  ⟨fun x y hm => interp1d_exact_hit _ hs x y hm,
   fun i x0 y0 x1 y1 x h0 h1 hx0 hx1 =>
     interp1d_between _ hs i x0 y0 x1 y1 x h0 h1 hx0 hx1⟩

/-- Witness for C6 on a concrete table containing the tabulated point
`(8165.393844536367, 6.419796603112413e-13)` of the geometric-factor test: the
exact grid hit returns the stored value bit-for-bit and a strictly interior
query interpolates linearly. -/
theorem c6_lookup_exact_at_grid_points_witness :
    (GeometricFactorCalibrationTable.mk [8165.393844536367, 20000]
        [6.419796603112413e-13, 1e-12]).lookup_geometric_factor
      8165.393844536367 = some 6.419796603112413e-13 ∧
    (GeometricFactorCalibrationTable.mk [8165.393844536367, 20000]
        [6.419796603112413e-13, 1e-12]).lookup_geometric_factor 10000 =
      some (6.419796603112413e-13 + (1e-12 - 6.419796603112413e-13) *
        (10000 - 8165.393844536367) / (20000 - 8165.393844536367)) := by
  have hs : (([8165.393844536367, 20000] : List ℚ).zip
      ([6.419796603112413e-13, 1e-12] : List ℚ)).Pairwise
      (fun p q => p.1 < q.1) := by
    simp only [List.zip_cons_cons, List.zip_nil_right, List.pairwise_cons,
      List.mem_cons, List.mem_singleton, List.Pairwise.nil, List.not_mem_nil]
    norm_num
  have h := c6_lookup_exact_at_grid_points
    (GeometricFactorCalibrationTable.mk [8165.393844536367, 20000]
      [6.419796603112413e-13, 1e-12]) hs
  constructor
  · exact h.1 8165.393844536367 6.419796603112413e-13 (by
      show _ ∈ ([8165.393844536367, 20000] : List ℚ).zip
        ([6.419796603112413e-13, 1e-12] : List ℚ)
      simp only [List.zip_cons_cons, List.zip_nil_right, List.mem_cons]
      exact Or.inl trivial)
  · exact h.2 0 8165.393844536367 6.419796603112413e-13 20000 1e-12 10000
      rfl rfl (by norm_num) (by norm_num)

/-- Value payload of a CDF data-product variable: a scalar, a per-record
matrix of rationals, or a list of epoch timestamps. -/
inductive VarValue
  | scalar (v : ℚ)
  | matrix (m : List (List ℚ))
  | times (ts : List ℤ)
deriving DecidableEq, Repr

/-- Modelled from the spec: the `DataProductVariable` record handed to the CDF
writer — a variable name, its value, an optional CDF data type and the
record-varying flag (source passes `record_varying=False` for non-varying
constants). -/
structure DataProductVariable where
  name : String
  value : VarValue
  cdf_data_type : Option String
  record_varying : Bool
deriving DecidableEq, Repr

/-- CDF variable names of `swapi/l3b/models.py` (the epoch names come from the
l3a models module). -/
def EPOCH_CDF_VAR_NAME : String := "epoch"

/-- CDF variable name of the epoch uncertainty. -/
def EPOCH_DELTA_CDF_VAR_NAME : String := "epoch_delta"

/-- CDF variable name of the proton solar-wind velocities. -/
def PROTON_SOLAR_WIND_VELOCITIES_CDF_VAR_NAME : String := "proton_sw_velocity"

/-- CDF variable name of the proton velocity uncertainties. -/
def PROTON_SOLAR_WIND_VELOCITIES_DELTAS_CDF_VAR_NAME : String :=
  "proton_sw_velocity_delta"

/-- CDF variable name of the proton VDF. -/
def PROTON_SOLAR_WIND_VDF_CDF_VAR_NAME : String := "proton_sw_vdf"

/-- CDF variable name of the proton VDF uncertainties. -/
def PROTON_SOLAR_WIND_VDF_DELTAS_CDF_VAR_NAME : String := "proton_sw_vdf_delta"

/-- CDF variable name of the alpha solar-wind velocities. -/
def ALPHA_SOLAR_WIND_VELOCITIES_CDF_VAR_NAME : String := "alpha_sw_velocity"

/-- CDF variable name of the alpha velocity uncertainties. -/
def ALPHA_SOLAR_WIND_VELOCITIES_DELTAS_CDF_VAR_NAME : String :=
  "alpha_sw_velocity_delta"

/-- CDF variable name of the alpha VDF. -/
def ALPHA_SOLAR_WIND_VDF_CDF_VAR_NAME : String := "alpha_sw_vdf"

/-- CDF variable name of the alpha VDF uncertainties. -/
def ALPHA_SOLAR_WIND_VDF_DELTAS_CDF_VAR_NAME : String := "alpha_sw_vdf_delta"

/-- CDF variable name of the pickup-ion solar-wind velocities. -/
def PUI_SOLAR_WIND_VELOCITIES_CDF_VAR_NAME : String := "pui_sw_velocity"

/-- CDF variable name of the pickup-ion velocity uncertainties. -/
def PUI_SOLAR_WIND_VELOCITIES_DELTAS_CDF_VAR_NAME : String :=
  "pui_sw_velocity_delta"

/-- CDF variable name of the pickup-ion VDF. -/
def PUI_SOLAR_WIND_VDF_CDF_VAR_NAME : String := "pui_sw_vdf"

/-- CDF variable name of the pickup-ion VDF uncertainties. -/
def PUI_SOLAR_WIND_VDF_DELTAS_CDF_VAR_NAME : String := "pui_sw_vdf_delta"

/-- CDF variable name of the combined energy grid. -/
def SOLAR_WIND_ENERGY_CDF_VAR_NAME : String := "combined_energy"

/-- CDF variable name of the combined-energy uncertainties. -/
def SOLAR_WIND_COMBINED_ENERGY_DELTAS_CDF_VAR_NAME : String :=
  "combined_energy_delta"

/-- CDF variable name of the combined differential flux. -/
def COMBINED_SOLAR_WIND_DIFFERENTIAL_FLUX_CDF_VAR_NAME : String :=
  "combined_differential_flux"

/-- CDF variable name of the combined-differential-flux uncertainties. -/
def COMBINED_SOLAR_WIND_DIFFERENTIAL_FLUX_DELTA_CDF_VAR_NAME : String :=
  "combined_differential_flux_delta"

/-- Modelled from the spec: thirty seconds expressed in nanoseconds, the half
window of a five-sweep L3a chunk (`imap_processing.constants`). -/
def THIRTY_SECONDS_IN_NANOSECONDS : ℤ := 30000000000

/-- Modelled from the spec: five minutes expressed in nanoseconds, the half
window of a fifty-sweep L3b chunk (`imap_processing.constants`). -/
def FIVE_MINUTES_IN_NANOSECONDS : ℤ := 300000000000

/-- The L3b combined-VDF data product of `swapi/l3b/models.py`: per-window
velocity and VDF arrays per species (each entry carrying its propagated
uncertainty), plus combined energies and differential fluxes. -/
structure SwapiL3BCombinedVDF where
  epoch : List ℤ
  proton_sw_velocities : List (List UValue)
  proton_sw_combined_vdf : List (List UValue)
  alpha_sw_velocities : List (List UValue)
  alpha_sw_combined_vdf : List (List UValue)
  pui_sw_velocities : List (List UValue)
  pui_sw_combined_vdf : List (List UValue)
  combined_energy : List (List ℚ)
  combined_differential_flux : List (List UValue)
deriving DecidableEq, Repr

/-- The `nominal_values` of an uncertain matrix. -/
def nominal_values (m : List (List UValue)) : List (List ℚ) :=
  m.map (fun r => r.map (fun u => u.nominal))

/-- The propagated uncertainties of an uncertain matrix, represented by the
variances (the squares of the `std_devs` of the `uncertainties` package). -/
def variance_values (m : List (List UValue)) : List (List ℚ) :=
  m.map (fun r => r.map (fun u => u.variance))

/-- The `to_data_product_variables` method of `SwapiL3BCombinedVDF`
(`swapi/l3b/models.py` lines 48–78), emitting the CDF variables in source
order; the velocity-delta, combined-energy-delta variables carry the fixed
non-record-varying scalar `6.0` exactly as in the source. -/
def SwapiL3BCombinedVDF.to_data_product_variables (p : SwapiL3BCombinedVDF) :
    List DataProductVariable :=
  [⟨EPOCH_CDF_VAR_NAME, .times p.epoch, some "CDF_TIME_TT2000", true⟩,
   ⟨EPOCH_DELTA_CDF_VAR_NAME, .scalar ((FIVE_MINUTES_IN_NANOSECONDS : ℤ) : ℚ),
     none, false⟩,
   ⟨PROTON_SOLAR_WIND_VELOCITIES_CDF_VAR_NAME,
     .matrix (nominal_values p.proton_sw_velocities), none, true⟩,
   ⟨PROTON_SOLAR_WIND_VELOCITIES_DELTAS_CDF_VAR_NAME, .scalar 6.0, none, false⟩,
   ⟨PROTON_SOLAR_WIND_VDF_CDF_VAR_NAME,
     .matrix (nominal_values p.proton_sw_combined_vdf), none, true⟩,
   ⟨PROTON_SOLAR_WIND_VDF_DELTAS_CDF_VAR_NAME,
     .matrix (variance_values p.proton_sw_combined_vdf), none, true⟩,
   ⟨ALPHA_SOLAR_WIND_VELOCITIES_CDF_VAR_NAME,
     .matrix (nominal_values p.alpha_sw_velocities), none, true⟩,
   ⟨ALPHA_SOLAR_WIND_VELOCITIES_DELTAS_CDF_VAR_NAME, .scalar 6.0, none, false⟩,
   ⟨ALPHA_SOLAR_WIND_VDF_CDF_VAR_NAME,
     .matrix (nominal_values p.alpha_sw_combined_vdf), none, true⟩,
   ⟨ALPHA_SOLAR_WIND_VDF_DELTAS_CDF_VAR_NAME,
     .matrix (variance_values p.alpha_sw_combined_vdf), none, true⟩,
   ⟨PUI_SOLAR_WIND_VELOCITIES_CDF_VAR_NAME,
     .matrix (nominal_values p.pui_sw_velocities), none, true⟩,
   ⟨PUI_SOLAR_WIND_VELOCITIES_DELTAS_CDF_VAR_NAME, .scalar 6.0, none, false⟩,
   ⟨PUI_SOLAR_WIND_VDF_CDF_VAR_NAME,
     .matrix (nominal_values p.pui_sw_combined_vdf), none, true⟩,
   ⟨PUI_SOLAR_WIND_VDF_DELTAS_CDF_VAR_NAME,
     .matrix (variance_values p.pui_sw_combined_vdf), none, true⟩,
   ⟨SOLAR_WIND_ENERGY_CDF_VAR_NAME, .matrix p.combined_energy, none, true⟩,
   ⟨SOLAR_WIND_COMBINED_ENERGY_DELTAS_CDF_VAR_NAME, .scalar 6.0, none, false⟩,
   ⟨COMBINED_SOLAR_WIND_DIFFERENTIAL_FLUX_CDF_VAR_NAME,
     .matrix (nominal_values p.combined_differential_flux), none, true⟩,
   ⟨COMBINED_SOLAR_WIND_DIFFERENTIAL_FLUX_DELTA_CDF_VAR_NAME,
     .matrix (variance_values p.combined_differential_flux), none, true⟩]

/-- A concrete L3b combined-VDF product whose proton, alpha and pickup-ion
velocities carry propagated standard deviations 5, 7 and 9 (variances 25, 49,
81), none of which equals the constant 6.0 the source emits as their delta. -/
def c5ExampleVDF : SwapiL3BCombinedVDF :=
  ⟨[100], [[⟨430, 25⟩]], [[⟨1, 4⟩]], [[⟨600, 49⟩]], [[⟨2, 1⟩]],
   [[⟨900, 81⟩]], [[⟨3, 1⟩]], [[1000]], [[⟨5, 9⟩]]⟩

/-- C5: the L3b combined-VDF product does NOT pair the species velocity
arrays (nor the combined energies) with their propagated uncertainties — on a
product whose proton/alpha/pickup-ion velocities carry propagated variances
25/49/81, the emitted delta variable of each species' velocity array and of
the combined energy is the fixed non-record-varying scalar `6.0`
(`swapi/l3b/models.py` lines 54, 60, 66, 72), which differs from every one of
the propagated standard deviations (6² ≠ 25, 49, 81): the code contradicts
the spec's requirement that every emitted physical quantity carries its own
propagated uncertainty. -/
theorem c5_velocity_deltas_are_hardcoded_constants :
    (c5ExampleVDF.to_data_product_variables.find?
        (fun v => v.name = PROTON_SOLAR_WIND_VELOCITIES_DELTAS_CDF_VAR_NAME) =
      some ⟨PROTON_SOLAR_WIND_VELOCITIES_DELTAS_CDF_VAR_NAME, .scalar 6.0,
        none, false⟩) ∧
    (c5ExampleVDF.to_data_product_variables.find?
        (fun v => v.name = ALPHA_SOLAR_WIND_VELOCITIES_DELTAS_CDF_VAR_NAME) =
      some ⟨ALPHA_SOLAR_WIND_VELOCITIES_DELTAS_CDF_VAR_NAME, .scalar 6.0,
        none, false⟩) ∧
    (c5ExampleVDF.to_data_product_variables.find?
        (fun v => v.name = PUI_SOLAR_WIND_VELOCITIES_DELTAS_CDF_VAR_NAME) =
      some ⟨PUI_SOLAR_WIND_VELOCITIES_DELTAS_CDF_VAR_NAME, .scalar 6.0,
        none, false⟩) ∧
    (c5ExampleVDF.to_data_product_variables.find?
        (fun v => v.name = SOLAR_WIND_COMBINED_ENERGY_DELTAS_CDF_VAR_NAME) =
      some ⟨SOLAR_WIND_COMBINED_ENERGY_DELTAS_CDF_VAR_NAME, .scalar 6.0,
        none, false⟩) ∧
    variance_values c5ExampleVDF.proton_sw_velocities = [[25]] ∧
    variance_values c5ExampleVDF.alpha_sw_velocities = [[49]] ∧
    variance_values c5ExampleVDF.pui_sw_velocities = [[81]] ∧
    ((6 : ℚ) ^ 2 ≠ 25 ∧ (6 : ℚ) ^ 2 ≠ 49 ∧ (6 : ℚ) ^ 2 ≠ 81) := by
  refine ⟨?_, ?_, ?_, ?_, rfl, rfl, rfl, by norm_num⟩ <;> rfl

/-- One raw L2 sweep: epoch plus the per-energy-step arrays consumed by the
processors (`SwapiL2Data` fields of `swapi/l3a/utils.py`). -/
structure SwapiL2Sweep where
  epoch : ℤ
  energy : List ℚ
  coincidence_count_rate : List ℚ
  coincidence_count_rate_uncertainty : List ℚ
  spin_angles : List ℚ
deriving DecidableEq, Repr

/-- Modelled from the spec: `chunk_l2_data` — splits the input sweeps into
successive complete chunks of `n` raw sweeps in input order (5 for L3a-style,
50 for VDF-style combined sweeps, §3). -/
def chunk_l2_data (data : List SwapiL2Sweep) (n : Nat) :
    List (List SwapiL2Sweep) :=
  (List.range (data.length / n)).map (fun k => (data.drop (k * n)).take n)

/-- The `uarray(coincidence_count_rate, coincidence_count_rate_uncertainty)`
of a chunk: per-sweep count rates paired with their variances. -/
def chunkCountRatesWithUncertainty (chunk : List SwapiL2Sweep) :
    List (List UValue) :=
  chunk.map (fun s =>
    (s.coincidence_count_rate.zip s.coincidence_count_rate_uncertainty).map
      (fun p => ⟨p.1, p.2 ^ 2⟩))

/-- The spin-angle arrays of a chunk. -/
def chunkSpinAngles (chunk : List SwapiL2Sweep) : List (List ℚ) :=
  chunk.map (fun s => s.spin_angles)

/-- The energy arrays of a chunk. -/
def chunkEnergy (chunk : List SwapiL2Sweep) : List (List ℚ) :=
  chunk.map (fun s => s.energy)

/-- The epoch array of a chunk. -/
def chunkEpochs (chunk : List SwapiL2Sweep) : List ℤ :=
  chunk.map (fun s => s.epoch)

/-- The science routines called by `process_l3a`, abstracted over their
calibration tables (which are fixed per processing run); argument lists mirror
the call sites in `swapi_processor.py`. -/
structure L3aScienceFunctions where
  calculate_proton_solar_wind_speed :
    List (List UValue) → List (List ℚ) → List (List ℚ) → List ℤ →
      UValue × UValue × UValue × UValue
  calculate_proton_solar_wind_temperature_and_density :
    UValue → UValue → UValue → List (List UValue) → List (List ℚ) →
      UValue × UValue
  calculate_clock_angle : UValue → UValue → UValue → UValue → UValue
  calculate_deflection_angle : UValue → UValue → UValue → UValue → UValue
  calculate_alpha_solar_wind_speed :
    List (List UValue) → List (List ℚ) → UValue
  calculate_alpha_solar_wind_temperature_and_density_for_combined_sweeps :
    UValue → List (List UValue) → List (List ℚ) → UValue × UValue

/-- The output arrays accumulated by `process_l3a` across chunks. -/
structure SwapiL3AOutputs where
  epochs : List ℤ
  proton_sw_speed : List UValue
  proton_sw_temperature : List UValue
  proton_sw_density : List UValue
  proton_sw_clock_angle : List UValue
  proton_sw_deflection_angle : List UValue
  alpha_sw_speed : List UValue
  alpha_sw_temperature : List UValue
  alpha_sw_density : List UValue

/-- The proton speed fit `(speed, a, phi, b)` of one chunk
(`swapi_processor.py` line 63). -/
def l3a_proton_fit (sci : L3aScienceFunctions) (chunk : List SwapiL2Sweep) :
    UValue × UValue × UValue × UValue :=
  sci.calculate_proton_solar_wind_speed (chunkCountRatesWithUncertainty chunk)
    (chunkSpinAngles chunk) (chunkEnergy chunk) (chunkEpochs chunk)

/-- The proton bulk speed of one chunk. -/
def l3a_chunk_proton_speed (sci : L3aScienceFunctions)
    (chunk : List SwapiL2Sweep) : UValue :=
  (l3a_proton_fit sci chunk).1

/-- The proton temperature/density fit of one chunk with the fixed initial
guess `ufloat(0.01, 1.0)` (`swapi_processor.py` line 68). -/
def l3a_chunk_proton_temperature_density (sci : L3aScienceFunctions)
    (chunk : List SwapiL2Sweep) : UValue × UValue :=
  sci.calculate_proton_solar_wind_temperature_and_density
    (l3a_chunk_proton_speed sci chunk) ⟨1 / 100, 1⟩
    (l3a_proton_fit sci chunk).2.2.1
    (chunkCountRatesWithUncertainty chunk) (chunkEnergy chunk)

/-- The clock angle of one chunk (`swapi_processor.py` line 76). -/
def l3a_chunk_clock_angle (sci : L3aScienceFunctions)
    (chunk : List SwapiL2Sweep) : UValue :=
  sci.calculate_clock_angle (l3a_chunk_proton_speed sci chunk)
    (l3a_proton_fit sci chunk).2.1 (l3a_proton_fit sci chunk).2.2.1
    (l3a_proton_fit sci chunk).2.2.2

/-- The deflection angle of one chunk (`swapi_processor.py` line 79). -/
def l3a_chunk_deflection_angle (sci : L3aScienceFunctions)
    (chunk : List SwapiL2Sweep) : UValue :=
  sci.calculate_deflection_angle (l3a_chunk_proton_speed sci chunk)
    (l3a_proton_fit sci chunk).2.1 (l3a_proton_fit sci chunk).2.2.1
    (l3a_proton_fit sci chunk).2.2.2

/-- The reported epoch of one L3a chunk: its first sweep's epoch plus thirty
seconds in nanoseconds (`swapi_processor.py` line 88). -/
def l3a_chunk_epoch (chunk : List SwapiL2Sweep) : ℤ :=
  (chunkEpochs chunk).headD 0 + THIRTY_SECONDS_IN_NANOSECONDS

/-- The alpha bulk speed of one chunk (`swapi_processor.py` line 90). -/
def l3a_chunk_alpha_speed (sci : L3aScienceFunctions)
    (chunk : List SwapiL2Sweep) : UValue :=
  sci.calculate_alpha_solar_wind_speed (chunkCountRatesWithUncertainty chunk)
    (chunkEnergy chunk)

/-- The alpha temperature/density of one chunk (`swapi_processor.py`
line 94). -/
def l3a_chunk_alpha_temperature_density (sci : L3aScienceFunctions)
    (chunk : List SwapiL2Sweep) : UValue × UValue :=
  sci.calculate_alpha_solar_wind_temperature_and_density_for_combined_sweeps
    (l3a_chunk_alpha_speed sci chunk) (chunkCountRatesWithUncertainty chunk)
    (chunkEnergy chunk)

/-- One iteration of the `process_l3a` loop: computes every per-chunk quantity
and appends exactly one entry to each output array. -/
def l3aStep (sci : L3aScienceFunctions) (acc : SwapiL3AOutputs)
    (chunk : List SwapiL2Sweep) : SwapiL3AOutputs :=
  ⟨acc.epochs ++ [l3a_chunk_epoch chunk],
   acc.proton_sw_speed ++ [l3a_chunk_proton_speed sci chunk],
   acc.proton_sw_temperature ++ [(l3a_chunk_proton_temperature_density sci chunk).1],
   acc.proton_sw_density ++ [(l3a_chunk_proton_temperature_density sci chunk).2],
   acc.proton_sw_clock_angle ++ [l3a_chunk_clock_angle sci chunk],
   acc.proton_sw_deflection_angle ++ [l3a_chunk_deflection_angle sci chunk],
   acc.alpha_sw_speed ++ [l3a_chunk_alpha_speed sci chunk],
   acc.alpha_sw_temperature ++ [(l3a_chunk_alpha_temperature_density sci chunk).1],
   acc.alpha_sw_density ++ [(l3a_chunk_alpha_temperature_density sci chunk).2]⟩

/-- The `process_l3a` driver (`swapi_processor.py` lines 47–117): iterates the
input sweeps in successive chunks of 5 and accumulates the per-chunk outputs
in input order. -/
def process_l3a (sci : L3aScienceFunctions) (data : List SwapiL2Sweep) :
    SwapiL3AOutputs :=
  (chunk_l2_data data 5).foldl (l3aStep sci) ⟨[], [], [], [], [], [], [], [], []⟩

/-- The fold underlying `process_l3a` appends one entry per chunk to every
output array, so each output is the map of its per-chunk function over the
chunk list. -/
theorem process_l3a_foldl_eq (sci : L3aScienceFunctions)
    (chunks : List (List SwapiL2Sweep)) (acc : SwapiL3AOutputs) :
    chunks.foldl (l3aStep sci) acc =
      ⟨acc.epochs ++ chunks.map l3a_chunk_epoch,
       acc.proton_sw_speed ++ chunks.map (l3a_chunk_proton_speed sci),
       acc.proton_sw_temperature ++
         chunks.map (fun c => (l3a_chunk_proton_temperature_density sci c).1),
       acc.proton_sw_density ++
         chunks.map (fun c => (l3a_chunk_proton_temperature_density sci c).2),
       acc.proton_sw_clock_angle ++ chunks.map (l3a_chunk_clock_angle sci),
       acc.proton_sw_deflection_angle ++
         chunks.map (l3a_chunk_deflection_angle sci),
       acc.alpha_sw_speed ++ chunks.map (l3a_chunk_alpha_speed sci),
       acc.alpha_sw_temperature ++
         chunks.map (fun c => (l3a_chunk_alpha_temperature_density sci c).1),
       acc.alpha_sw_density ++
         chunks.map (fun c => (l3a_chunk_alpha_temperature_density sci c).2)⟩ := by
  induction chunks generalizing acc with
  | nil => simp
  | cons c cs ih =>
    rw [List.foldl_cons, ih]
    simp [l3aStep, List.append_assoc]

/-- The science routines called by `process_l3b`, abstracted over their
calibration tables; argument lists mirror the call sites in
`swapi_processor.py`. -/
structure L3bScienceFunctions where
  get_efficiency_for : ℤ → ℚ
  calculate_combined_sweeps :
    List (List UValue) → List (List ℚ) → List UValue × List ℚ
  calculate_proton_solar_wind_vdf :
    List ℚ → List UValue → ℚ → List ℚ × List UValue
  calculate_alpha_solar_wind_vdf :
    List ℚ → List UValue → ℚ → List ℚ × List UValue
  calculate_pui_solar_wind_vdf :
    List ℚ → List UValue → ℚ → List ℚ × List UValue
  calculate_combined_solar_wind_differential_flux :
    List ℚ → List UValue → ℚ → List UValue
  calculate_delta_minus_plus : List ℚ → List ℚ × List ℚ

/-- The output arrays accumulated by `process_l3b` across chunks. -/
structure SwapiL3BOutputs where
  epochs : List ℤ
  proton_velocities : List (List ℚ)
  proton_probabilities : List (List UValue)
  proton_deltas : List (List ℚ × List ℚ)
  alpha_velocities : List (List ℚ)
  alpha_probabilities : List (List UValue)
  alpha_deltas : List (List ℚ × List ℚ)
  pui_velocities : List (List ℚ)
  pui_probabilities : List (List UValue)
  pui_deltas : List (List ℚ × List ℚ)
  combined_energies : List (List ℚ)
  combined_energy_deltas : List (List ℚ × List ℚ)
  combined_differential_fluxes : List (List UValue)

/-- The reported epoch (`center_of_epoch`) of one L3b chunk: its first sweep's
epoch plus five minutes in nanoseconds (`swapi_processor.py` line 134). -/
def l3b_chunk_epoch (chunk : List SwapiL2Sweep) : ℤ :=
  (chunkEpochs chunk).headD 0 + FIVE_MINUTES_IN_NANOSECONDS

/-- The instrument efficiency of one chunk, looked up at the chunk's reported
epoch (`swapi_processor.py` line 135). -/
def l3b_chunk_efficiency (sci : L3bScienceFunctions)
    (chunk : List SwapiL2Sweep) : ℚ :=
  sci.get_efficiency_for (l3b_chunk_epoch chunk)

/-- The combined (averaged) sweep of one chunk (`swapi_processor.py`
line 139). -/
def l3b_chunk_combined (sci : L3bScienceFunctions)
    (chunk : List SwapiL2Sweep) : List UValue × List ℚ :=
  sci.calculate_combined_sweeps (chunkCountRatesWithUncertainty chunk)
    (chunkEnergy chunk)

/-- The proton VDF of one chunk (`swapi_processor.py` line 142). -/
def l3b_chunk_proton_vdf (sci : L3bScienceFunctions)
    (chunk : List SwapiL2Sweep) : List ℚ × List UValue :=
  sci.calculate_proton_solar_wind_vdf (l3b_chunk_combined sci chunk).2
    (l3b_chunk_combined sci chunk).1 (l3b_chunk_efficiency sci chunk)

/-- The alpha VDF of one chunk (`swapi_processor.py` line 147). -/
def l3b_chunk_alpha_vdf (sci : L3bScienceFunctions)
    (chunk : List SwapiL2Sweep) : List ℚ × List UValue :=
  sci.calculate_alpha_solar_wind_vdf (l3b_chunk_combined sci chunk).2
    (l3b_chunk_combined sci chunk).1 (l3b_chunk_efficiency sci chunk)

/-- The pickup-ion VDF of one chunk (`swapi_processor.py` line 152). -/
def l3b_chunk_pui_vdf (sci : L3bScienceFunctions)
    (chunk : List SwapiL2Sweep) : List ℚ × List UValue :=
  sci.calculate_pui_solar_wind_vdf (l3b_chunk_combined sci chunk).2
    (l3b_chunk_combined sci chunk).1 (l3b_chunk_efficiency sci chunk)

/-- The combined differential flux of one chunk (`swapi_processor.py`
line 156). -/
def l3b_chunk_flux (sci : L3bScienceFunctions)
    (chunk : List SwapiL2Sweep) : List UValue :=
  sci.calculate_combined_solar_wind_differential_flux
    (l3b_chunk_combined sci chunk).2 (l3b_chunk_combined sci chunk).1
    (l3b_chunk_efficiency sci chunk)

/-- One iteration of the `process_l3b` loop: computes every per-chunk quantity
and appends exactly one entry to each output array. -/
def l3bStep (sci : L3bScienceFunctions) (acc : SwapiL3BOutputs)
    (chunk : List SwapiL2Sweep) : SwapiL3BOutputs :=
  ⟨acc.epochs ++ [l3b_chunk_epoch chunk],
   acc.proton_velocities ++ [(l3b_chunk_proton_vdf sci chunk).1],
   acc.proton_probabilities ++ [(l3b_chunk_proton_vdf sci chunk).2],
   acc.proton_deltas ++
     [sci.calculate_delta_minus_plus (l3b_chunk_proton_vdf sci chunk).1],
   acc.alpha_velocities ++ [(l3b_chunk_alpha_vdf sci chunk).1],
   acc.alpha_probabilities ++ [(l3b_chunk_alpha_vdf sci chunk).2],
   acc.alpha_deltas ++
     [sci.calculate_delta_minus_plus (l3b_chunk_alpha_vdf sci chunk).1],
   acc.pui_velocities ++ [(l3b_chunk_pui_vdf sci chunk).1],
   acc.pui_probabilities ++ [(l3b_chunk_pui_vdf sci chunk).2],
   acc.pui_deltas ++
     [sci.calculate_delta_minus_plus (l3b_chunk_pui_vdf sci chunk).1],
   acc.combined_energies ++ [(l3b_chunk_combined sci chunk).2],
   acc.combined_energy_deltas ++
     [sci.calculate_delta_minus_plus (l3b_chunk_combined sci chunk).2],
   acc.combined_differential_fluxes ++ [l3b_chunk_flux sci chunk]⟩

/-- The `process_l3b` driver (`swapi_processor.py` lines 119–207): iterates
the input sweeps in successive chunks of 50 and accumulates the per-chunk
outputs in input order. -/
def process_l3b (sci : L3bScienceFunctions) (data : List SwapiL2Sweep) :
    SwapiL3BOutputs :=
  (chunk_l2_data data 50).foldl (l3bStep sci)
    ⟨[], [], [], [], [], [], [], [], [], [], [], [], []⟩

/-- The fold underlying `process_l3b` appends one entry per chunk to every
output array, so each output is the map of its per-chunk function over the
chunk list. -/
theorem process_l3b_foldl_eq (sci : L3bScienceFunctions)
    (chunks : List (List SwapiL2Sweep)) (acc : SwapiL3BOutputs) :
    chunks.foldl (l3bStep sci) acc =
      ⟨acc.epochs ++ chunks.map l3b_chunk_epoch,
       acc.proton_velocities ++
         chunks.map (fun c => (l3b_chunk_proton_vdf sci c).1),
       acc.proton_probabilities ++
         chunks.map (fun c => (l3b_chunk_proton_vdf sci c).2),
       acc.proton_deltas ++ chunks.map
         (fun c => sci.calculate_delta_minus_plus (l3b_chunk_proton_vdf sci c).1),
       acc.alpha_velocities ++
         chunks.map (fun c => (l3b_chunk_alpha_vdf sci c).1),
       acc.alpha_probabilities ++
         chunks.map (fun c => (l3b_chunk_alpha_vdf sci c).2),
       acc.alpha_deltas ++ chunks.map
         (fun c => sci.calculate_delta_minus_plus (l3b_chunk_alpha_vdf sci c).1),
       acc.pui_velocities ++
         chunks.map (fun c => (l3b_chunk_pui_vdf sci c).1),
       acc.pui_probabilities ++
         chunks.map (fun c => (l3b_chunk_pui_vdf sci c).2),
       acc.pui_deltas ++ chunks.map
         (fun c => sci.calculate_delta_minus_plus (l3b_chunk_pui_vdf sci c).1),
       acc.combined_energies ++
         chunks.map (fun c => (l3b_chunk_combined sci c).2),
       acc.combined_energy_deltas ++ chunks.map
         (fun c => sci.calculate_delta_minus_plus (l3b_chunk_combined sci c).2),
       acc.combined_differential_fluxes ++ chunks.map (l3b_chunk_flux sci)⟩ := by
  induction chunks generalizing acc with
  | nil => simp
  | cons c cs ih =>
    rw [List.foldl_cons, ih]
    simp [l3bStep, List.append_assoc]

/-- The k-th chunk produced by `chunk_l2_data` is exactly the k-th successive
block of `n` sweeps of the input, in input order. -/
theorem chunk_l2_data_get? (data : List SwapiL2Sweep) (n k : Nat) :
    (chunk_l2_data data n).get? k =
      if k < data.length / n then some ((data.drop (k * n)).take n)
      else none := by
  rw [chunk_l2_data]
  simp only [List.get?_eq_getElem?, List.getElem?_map]
  split_ifs with h
  · rw [List.getElem?_range h]
    rfl
  · rw [List.getElem?_eq_none (by simpa using Nat.not_lt.mp h)]
    rfl

/-- Every chunk produced by `chunk_l2_data` consists of exactly `n` raw
sweeps. -/
theorem chunk_l2_data_lengths (data : List SwapiL2Sweep) (n : Nat) :
    (chunk_l2_data data n).map List.length =
      List.replicate (data.length / n) n := by
  rw [chunk_l2_data, List.map_map]
  rw [List.eq_replicate_iff]
  constructor
  · simp
  · intro b hb
    simp only [List.mem_map, List.mem_range, Function.comp] at hb
    obtain ⟨k, hk, rfl⟩ := hb
    have h1 : (k + 1) * n ≤ data.length / n * n :=
      Nat.mul_le_mul_right n (Nat.succ_le_of_lt hk)
    have h2 : k * n + n ≤ data.length := by
      calc k * n + n = (k + 1) * n := by ring
        _ ≤ data.length / n * n := h1
        _ ≤ data.length := Nat.div_mul_le_self _ _
    rw [List.length_take, List.length_drop]
    exact Nat.min_eq_left (Nat.le_sub_of_add_le (by linarith))

/-- C8: windowing and output order — for every input dataset, `process_l3a`
consumes the sweeps in successive chunks of exactly 5 raw sweeps in input
order, appending exactly one result per chunk to each output array, so every
output array is the map of its per-chunk computation over the chunk list (the
k-th element of every output array is derived from the k-th 5-sweep chunk);
`process_l3b` does the same with chunks of 50. -/
theorem c8_windowing_and_output_order (sciA : L3aScienceFunctions)
    (sciB : L3bScienceFunctions) (data : List SwapiL2Sweep) :
    (∀ k, (chunk_l2_data data 5).get? k =
      if k < data.length / 5 then some ((data.drop (k * 5)).take 5)
      else none) ∧
    ((chunk_l2_data data 5).map List.length =
      List.replicate (data.length / 5) 5) ∧
    (process_l3a sciA data =
      ⟨(chunk_l2_data data 5).map l3a_chunk_epoch,
       (chunk_l2_data data 5).map (l3a_chunk_proton_speed sciA),
       (chunk_l2_data data 5).map
         (fun c => (l3a_chunk_proton_temperature_density sciA c).1),
       (chunk_l2_data data 5).map
         (fun c => (l3a_chunk_proton_temperature_density sciA c).2),
       (chunk_l2_data data 5).map (l3a_chunk_clock_angle sciA),
       (chunk_l2_data data 5).map (l3a_chunk_deflection_angle sciA),
       (chunk_l2_data data 5).map (l3a_chunk_alpha_speed sciA),
       (chunk_l2_data data 5).map
         (fun c => (l3a_chunk_alpha_temperature_density sciA c).1),
       (chunk_l2_data data 5).map
         (fun c => (l3a_chunk_alpha_temperature_density sciA c).2)⟩) ∧
    (∀ k, (chunk_l2_data data 50).get? k =
      if k < data.length / 50 then some ((data.drop (k * 50)).take 50)
      else none) ∧
    ((chunk_l2_data data 50).map List.length =
      List.replicate (data.length / 50) 50) ∧
    (process_l3b sciB data =
      ⟨(chunk_l2_data data 50).map l3b_chunk_epoch,
       (chunk_l2_data data 50).map (fun c => (l3b_chunk_proton_vdf sciB c).1),
       (chunk_l2_data data 50).map (fun c => (l3b_chunk_proton_vdf sciB c).2),
       (chunk_l2_data data 50).map (fun c =>
         sciB.calculate_delta_minus_plus (l3b_chunk_proton_vdf sciB c).1),
       (chunk_l2_data data 50).map (fun c => (l3b_chunk_alpha_vdf sciB c).1),
       (chunk_l2_data data 50).map (fun c => (l3b_chunk_alpha_vdf sciB c).2),
       (chunk_l2_data data 50).map (fun c =>
         sciB.calculate_delta_minus_plus (l3b_chunk_alpha_vdf sciB c).1),
       (chunk_l2_data data 50).map (fun c => (l3b_chunk_pui_vdf sciB c).1),
       (chunk_l2_data data 50).map (fun c => (l3b_chunk_pui_vdf sciB c).2),
       (chunk_l2_data data 50).map (fun c =>
         sciB.calculate_delta_minus_plus (l3b_chunk_pui_vdf sciB c).1),
       (chunk_l2_data data 50).map (fun c => (l3b_chunk_combined sciB c).2),
       (chunk_l2_data data 50).map (fun c =>
         sciB.calculate_delta_minus_plus (l3b_chunk_combined sciB c).2),
       (chunk_l2_data data 50).map (l3b_chunk_flux sciB)⟩) :=
  ⟨fun k => chunk_l2_data_get? data 5 k,
   chunk_l2_data_lengths data 5,
   by rw [process_l3a, process_l3a_foldl_eq]; simp,
   fun k => chunk_l2_data_get? data 50 k,
   chunk_l2_data_lengths data 50,
   by rw [process_l3b, process_l3b_foldl_eq]; simp⟩

/-- C10: the epoch reported for each output window is the first sweep's epoch
of that chunk plus a fixed half-window offset — 30 seconds in nanoseconds for
every 5-sweep L3a chunk and 5 minutes in nanoseconds for every 50-sweep L3b
chunk — and no element of the chunk other than its first epoch affects the
reported epoch. -/
theorem c10_window_epoch_is_first_epoch_plus_offset (sciA : L3aScienceFunctions)
    (sciB : L3bScienceFunctions) (data : List SwapiL2Sweep) :
    ((process_l3a sciA data).epochs =
      (chunk_l2_data data 5).map l3a_chunk_epoch) ∧
    ((process_l3b sciB data).epochs =
      (chunk_l2_data data 50).map l3b_chunk_epoch) ∧
    (∀ chunk : List SwapiL2Sweep,
      l3a_chunk_epoch chunk =
        (chunk.map (fun s => s.epoch)).headD 0 + 30000000000) ∧
    (∀ chunk : List SwapiL2Sweep,
      l3b_chunk_epoch chunk =
        (chunk.map (fun s => s.epoch)).headD 0 + 300000000000) ∧
    (∀ c1 c2 : List SwapiL2Sweep,
      (chunkEpochs c1).headD 0 = (chunkEpochs c2).headD 0 →
      l3a_chunk_epoch c1 = l3a_chunk_epoch c2 ∧
      l3b_chunk_epoch c1 = l3b_chunk_epoch c2) :=
  ⟨by rw [process_l3a, process_l3a_foldl_eq]; simp,
   by rw [process_l3b, process_l3b_foldl_eq]; simp,
   fun chunk => rfl,
   fun chunk => rfl,
   fun c1 c2 h => by
     constructor
     · rw [l3a_chunk_epoch, l3a_chunk_epoch, h]
     · rw [l3b_chunk_epoch, l3b_chunk_epoch, h]⟩

/-- Witness for C10 at two concrete chunks sharing only their first epoch:
both reported epochs agree. -/
theorem c10_window_epoch_is_first_epoch_plus_offset_witness :
    l3a_chunk_epoch [⟨7, [], [], [], []⟩] =
      l3a_chunk_epoch [⟨7, [1], [2], [3], [4]⟩, ⟨99, [], [], [], []⟩] ∧
    l3b_chunk_epoch [⟨7, [], [], [], []⟩] =
      l3b_chunk_epoch [⟨7, [1], [2], [3], [4]⟩, ⟨99, [], [], [], []⟩] :=
  (c10_window_epoch_is_first_epoch_plus_offset
    ⟨fun _ _ _ _ => (⟨0, 0⟩, ⟨0, 0⟩, ⟨0, 0⟩, ⟨0, 0⟩), fun _ _ _ _ _ => (⟨0, 0⟩, ⟨0, 0⟩),
     fun _ _ _ _ => ⟨0, 0⟩, fun _ _ _ _ => ⟨0, 0⟩, fun _ _ => ⟨0, 0⟩,
     fun _ _ _ => (⟨0, 0⟩, ⟨0, 0⟩)⟩
    ⟨fun _ => 0, fun _ _ => ([], []), fun _ _ _ => ([], []), fun _ _ _ => ([], []),
     fun _ _ _ => ([], []), fun _ _ _ => [], fun _ => ([], [])⟩
    []).2.2.2.2 [⟨7, [], [], [], []⟩] [⟨7, [1], [2], [3], [4]⟩, ⟨99, [], [], [], []⟩] rfl

/-- Failure conditions reported by the bounded nonlinear least-squares
driver (§7: numerical non-convergence and singular Jacobian/covariance are
distinct reported failures). -/
inductive FitFailure
  | maxIterationsExceeded
  | singularJacobian
deriving DecidableEq, Repr

/-- Modelled from the spec: the bounded-iteration nonlinear least-squares
driver shared by the speed fit and the temperature/density fit (§4.2, §5,
§7): starting from an initial state it performs at most `fuel` update steps;
it reports `singularJacobian` when the current state's Jacobian/covariance is
singular, returns the current state once the convergence test holds, and
reports `maxIterationsExceeded` when the iteration bound is exhausted, never
looping and never returning a non-convergent state as a fit result. -/
def run_fit {σ : Type} (step : σ → σ) (converged singular : σ → Bool) :
    Nat → σ → Except FitFailure σ
  | 0, _ => .error .maxIterationsExceeded
  | fuel + 1, s =>
    if singular s then .error .singularJacobian
    else if converged s then .ok s
    else run_fit step converged singular fuel (step s)

/-- C9: bounded-iteration fit termination with explicit failure — every
invocation of the fit driver with iteration bound `fuel` either returns a
state that passes the convergence test and is non-singular and is reached
within fewer than `fuel` steps, or reports a distinct fit-failure condition;
in particular whenever no iterate within the bound converges, the result is a
reported failure, never a plausible-looking non-convergent fit result. -/
theorem c9_fit_terminates_with_explicit_failure {σ : Type} (step : σ → σ)
    (converged singular : σ → Bool) (fuel : Nat) (s : σ) :
    (∀ r, run_fit step converged singular fuel s = .ok r →
      converged r = true ∧ singular r = false ∧
        ∃ k, k < fuel ∧ r = step^[k] s) ∧
    ((∀ k, k < fuel → converged (step^[k] s) = false) →
      ∃ e, run_fit step converged singular fuel s = .error e) := by
  induction fuel generalizing s with
  | zero =>
    exact ⟨fun r h => Except.noConfusion h,
      fun _ => ⟨.maxIterationsExceeded, rfl⟩⟩
  | succ n ih =>
    constructor
    · intro r h
      rw [run_fit] at h
      by_cases h1 : singular s = true
      · rw [if_pos h1] at h
        exact Except.noConfusion h
      · rw [if_neg h1] at h
        by_cases h2 : converged s = true
        · rw [if_pos h2] at h
          cases h
          refine ⟨h2, ?_, 0, Nat.zero_lt_succ n, rfl⟩
          simpa using h1
        · rw [if_neg h2] at h
          obtain ⟨hc, hs, k, hk, hr⟩ := (ih (step s)).1 r h
          refine ⟨hc, hs, k + 1, Nat.succ_lt_succ hk, ?_⟩
          rw [hr, Function.iterate_succ_apply]
    · intro hconv
      rw [run_fit]
      by_cases h1 : singular s = true
      · rw [if_pos h1]
        exact ⟨.singularJacobian, rfl⟩
      · rw [if_neg h1]
        have h0 := hconv 0 (Nat.zero_lt_succ n)
        simp only [Function.iterate_zero, id] at h0
        rw [if_neg (by rw [h0]; exact Bool.false_ne_true)]
        exact (ih (step s)).2 (fun k hk => by
          have hk1 := hconv (k + 1) (Nat.succ_lt_succ hk)
          rwa [Function.iterate_succ_apply] at hk1)

/-- Witness for C9 at a concrete run that converges: the returned state
passes the convergence test. -/
theorem c9_fit_terminates_with_explicit_failure_witness :
    (fun n : Nat => decide (3 ≤ n)) 3 = true ∧
    (fun _ : Nat => false) 3 = false ∧
    ∃ k, k < 5 ∧ 3 = Nat.succ^[k] 0 :=
  (c9_fit_terminates_with_explicit_failure Nat.succ (fun n => decide (3 ≤ n))
    (fun _ => false) 5 0).1 3 rfl

/-- The `assertAlmostEqual(expected, actual, places)` check of the test
framework: the difference rounds to zero at `places` decimal places
(boundary ties ignored: strict inequality). -/
def assertAlmostEqual (expected actual : ℚ) (places : Nat) : Prop :=
  |expected - actual| < 1 / 2 * (1 / 10) ^ places

/-- The currently active expected values of the five-sweep
temperature/density fit
(`test_calculate_using_five_sweeps_from_example_file`, lines 50–53):
temperature 100622 ± tolerance at 0 places with standard deviation 245,
density 4.674 at 3 places with standard deviation 5.00e-3. -/
def five_sweep_active_expectations
    (temperature temperature_std density density_std : ℚ) : Prop :=
  assertAlmostEqual 100622 temperature 0 ∧
  assertAlmostEqual 245 temperature_std 0 ∧
  assertAlmostEqual 4.674 density 3 ∧
  assertAlmostEqual 5.00e-3 density_std 5

/-- The superseded, commented-out expected values of the same test
(lines 45–48). -/
def five_sweep_superseded_expectations
    (temperature temperature_std density density_std : ℚ) : Prop :=
  assertAlmostEqual 100476 temperature 0 ∧
  assertAlmostEqual 265 temperature_std 0 ∧
  assertAlmostEqual 5.102 density 3 ∧
  assertAlmostEqual 6.15e-3 density_std 5

/-- C7: five-sweep fit contract — any fit result satisfying the currently
active expectations has temperature 100622 to 0 decimal places with standard
deviation 245, and density 4.674 to 3 decimal places with standard deviation
5.00e-3, and necessarily violates every one of the superseded commented-out
expectations (100476, 265, 5.102, 6.15e-3): the two expectation sets are
mutually exclusive, so the active set alone is the contract.  The fit
implementation and the example data file are not among the sources; the
result of the five-sweep fit is modelled by the contract predicate the spec
designates as authoritative. -/
theorem c7_five_sweep_contract_is_active_expectations
    (temperature temperature_std density density_std : ℚ)
    (h : five_sweep_active_expectations temperature temperature_std density
      density_std) :
    (|100622 - temperature| < 1 / 2 ∧ |245 - temperature_std| < 1 / 2 ∧
     |4.674 - density| < 1 / 2 * (1 / 10) ^ 3 ∧
     |5.00e-3 - density_std| < 1 / 2 * (1 / 10) ^ 5) ∧
    ¬ assertAlmostEqual 100476 temperature 0 ∧
    ¬ assertAlmostEqual 265 temperature_std 0 ∧
    ¬ assertAlmostEqual 5.102 density 3 ∧
    ¬ assertAlmostEqual 6.15e-3 density_std 5 := by
  obtain ⟨h1, h2, h3, h4⟩ := h
  simp only [assertAlmostEqual, abs_lt] at h1 h2 h3 h4
  refine ⟨⟨?_, ?_, ?_, ?_⟩, ?_, ?_, ?_, ?_⟩
  · rw [abs_lt]; constructor <;> [linarith [h1.1]; linarith [h1.2]]
  · rw [abs_lt]; constructor <;> [linarith [h2.1]; linarith [h2.2]]
  · rw [abs_lt]
    constructor
    · norm_num at h3 ⊢; linarith [h3.1]
    · norm_num at h3 ⊢; linarith [h3.2]
  · rw [abs_lt]
    constructor
    · norm_num at h4 ⊢; linarith [h4.1]
    · norm_num at h4 ⊢; linarith [h4.2]
  · intro hc
    rw [assertAlmostEqual, abs_lt] at hc
    norm_num at hc h1
    linarith [hc.1, h1.2]
  · intro hc
    rw [assertAlmostEqual, abs_lt] at hc
    norm_num at hc h2
    linarith [hc.1, h2.2]
  · intro hc
    rw [assertAlmostEqual, abs_lt] at hc
    norm_num at hc h3
    linarith [hc.2, h3.1]
  · intro hc
    rw [assertAlmostEqual, abs_lt] at hc
    norm_num at hc h4
    linarith [hc.2, h4.1]

/-- Witness for C7 at the nominal contract values themselves. -/
theorem c7_five_sweep_contract_is_active_expectations_witness :
    (|(100622 : ℚ) - 100622| < 1 / 2 ∧ |(245 : ℚ) - 245| < 1 / 2 ∧
     |(4.674 : ℚ) - 4.674| < 1 / 2 * (1 / 10) ^ 3 ∧
     |(5.00e-3 : ℚ) - 5.00e-3| < 1 / 2 * (1 / 10) ^ 5) ∧
    ¬ assertAlmostEqual 100476 100622 0 ∧
    ¬ assertAlmostEqual 265 245 0 ∧
    ¬ assertAlmostEqual 5.102 4.674 3 ∧
    ¬ assertAlmostEqual 6.15e-3 5.00e-3 5 :=
  c7_five_sweep_contract_is_active_expectations 100622 245 4.674 5.00e-3
    (by norm_num [five_sweep_active_expectations, assertAlmostEqual])
